import Mathlib

/-!
# Shallow embedding of `SceneManager.cpp` (CS-330 final project milestone)

This file embeds the scene-manager resource layer of the repository:
the texture table (`CreateGLTexture`, `BindGLTextures`, `DestroyGLTextures`,
`FindTextureID`, `FindTextureSlot`), the material table (`FindMaterial`),
and the uniform-propagation helpers (`SetTransformations`, `SetShaderColor`,
`SetShaderTexture`, `SetTextureUVScale`, `SetShaderMaterial`).

Modelling decisions:
* GLM floats are modelled as rationals (`ℚ`).  The trigonometric evaluation
  `cos (radians θ)` / `sin (radians θ)` inside `glm::rotate` is transcendental,
  so rotation helpers take the cosine/sine pair of the (radian) angle as
  explicit arguments; at 90° those values are exactly (0, 1).
* The external shader-uniform interface (`ShaderManager`) is a record of the
  uniform values the scene manager writes; `m_pShaderManager` is an
  `Option ShaderState` where `none` models the NULL pointer.
* Helpers return `Option SceneManager`: `none` models undefined behaviour
  (a dereference of the NULL shader pointer), `some s` a normal return.
* The fixed C array `m_textureIDs[16]` together with the `m_loadedTextures`
  counter is modelled by the list of entries written so far: the C++ write
  `m_textureIDs[m_loadedTextures] = e; m_loadedTextures++` appends `e`, and
  the written slot index is the length of the list before the append.
* `stbi_load` and `glGenTextures` are external effects: the image-load
  outcome and the generated texture handle are passed in as arguments.
-/

abbrev Vec3 := ℚ × ℚ × ℚ

abbrev Vec4 := ℚ × ℚ × ℚ × ℚ

abbrev Mat4 := Fin 4 → Fin 4 → ℚ

/-- Product of 4x4 matrices (row i of `A` times column j of `B`). -/
def mul4 (A B : Mat4) : Mat4 := fun i j =>
  A i 0 * B 0 j + A i 1 * B 1 j + A i 2 * B 2 j + A i 3 * B 3 j

/-- The matrix `glm::scale(v)`: diagonal scaling matrix. -/
def scaleM (v : Vec3) : Mat4 :=
  ![![v.1, 0, 0, 0], ![0, v.2.1, 0, 0], ![0, 0, v.2.2, 0], ![0, 0, 0, 1]]

/-- The matrix `glm::translate(p)`: homogeneous translation matrix. -/
def translateM (p : Vec3) : Mat4 :=
  ![![1, 0, 0, p.1], ![0, 1, 0, p.2.1], ![0, 0, 1, p.2.2], ![0, 0, 0, 1]]

/-- The matrix `glm::rotate(θ, vec3(1,0,0))` where `c = cos θ`, `s = sin θ`. -/
def rotXM (c s : ℚ) : Mat4 :=
  ![![1, 0, 0, 0], ![0, c, -s, 0], ![0, s, c, 0], ![0, 0, 0, 1]]

/-- The matrix `glm::rotate(θ, vec3(0,1,0))` where `c = cos θ`, `s = sin θ`. -/
def rotYM (c s : ℚ) : Mat4 :=
  ![![c, 0, s, 0], ![0, 1, 0, 0], ![-s, 0, c, 0], ![0, 0, 0, 1]]

/-- The matrix `glm::rotate(θ, vec3(0,0,1))` where `c = cos θ`, `s = sin θ`. -/
def rotZM (c s : ℚ) : Mat4 :=
  ![![c, -s, 0, 0], ![s, c, 0, 0], ![0, 0, 1, 0], ![0, 0, 0, 1]]

/-- One entry of `m_textureIDs`: `{ GLuint ID; std::string tag; }`. -/
structure TEXTURE_ID where
  ID : Nat
  tag : String
deriving DecidableEq, Repr

/-- The struct `OBJECT_MATERIAL`: the material property set registered under a tag. -/
structure OBJECT_MATERIAL where
  ambientColor : Vec3
  ambientStrength : ℚ
  diffuseColor : Vec3
  specularColor : Vec3
  shininess : ℚ
  tag : String
deriving DecidableEq, Repr

/-- The uniform values the scene manager writes through `ShaderManager`:
`model`, `objectColor`, `objectTexture` (sampler slot), `bUseTexture`,
`UVscale` and the `material.*` block. -/
structure ShaderState where
  model : Mat4
  objectColor : Vec4
  objectTexture : Int
  bUseTexture : Bool
  uvScale : ℚ × ℚ
  materialAmbientColor : Vec3
  materialAmbientStrength : ℚ
  materialDiffuseColor : Vec3
  materialSpecularColor : Vec3
  materialShininess : ℚ

/-- The state of a `SceneManager` object: the (possibly NULL) shader
interface and the two lookup tables. -/
structure SceneManager where
  shader : Option ShaderState
  textureIDs : List TEXTURE_ID
  objectMaterials : List OBJECT_MATERIAL

namespace SceneManager

/-- Modelled from the spec: the capacity of the `m_textureIDs` array is
declared in `SceneManager.h`, which is not part of the sources; the spec
fixes it as "capacity bound by available texture units, nominally 16",
matching the "up to 16 slots" comments in `SceneManager.cpp`. -/
def MAX_TEXTURES : Nat := 16

/-- The decoded result of a successful `stbi_load`. -/
structure ImageData where
  width : Nat
  height : Nat
  colorChannels : Nat
deriving DecidableEq, Repr

/-- Method `SceneManager::CreateGLTexture`.  `image` is the `stbi_load` outcome
(`none` = decode failure), `textureID` the handle produced by
`glGenTextures`.  On success the entry is written at index
`m_loadedTextures` (= current list length) and the counter incremented,
i.e. the entry is appended. -/
def CreateGLTexture (image : Option ImageData) (textureID : Nat) (tag : String)
    (s : SceneManager) : Bool × SceneManager :=
  match image with
  | some img =>
    if img.colorChannels = 3 ∨ img.colorChannels = 4 then
      (true, { s with textureIDs := s.textureIDs ++ [⟨textureID, tag⟩] })
    else
      (false, s)
  | none => (false, s)

/-- The GL calls the teardown loop can issue. -/
inductive GLCall where
  | genTextures
  | deleteTextures
deriving DecidableEq, Repr

/-- The loop body of `SceneManager::DestroyGLTextures`:
`for i < m_loadedTextures: glGenTextures(1, &m_textureIDs[i].ID)`.
Returns the trace of GL calls issued and the updated entries; `h` is the
next handle the GL context would hand out (each `glGenTextures` stores a
fresh handle into the entry). -/
def destroyLoop : List TEXTURE_ID → Nat → List GLCall × List TEXTURE_ID
  | [], _ => ([], [])
  | e :: rest, h =>
    let r := destroyLoop rest (h + 1)
    (GLCall.genTextures :: r.1, { e with ID := h } :: r.2)

/-- Method `SceneManager::DestroyGLTextures`. -/
def DestroyGLTextures (nextHandle : Nat) (s : SceneManager) :
    List GLCall × SceneManager :=
  let r := destroyLoop s.textureIDs nextHandle
  (r.1, { s with textureIDs := r.2 })

/-- The scan loop of `SceneManager::FindTextureID`: first entry whose tag
matches wins; `-1` if none does. -/
def findID : List TEXTURE_ID → String → Int
  | [], _ => -1
  | e :: rest, tag => if e.tag = tag then (e.ID : Int) else findID rest tag

/-- Method `SceneManager::FindTextureID`. -/
def FindTextureID (s : SceneManager) (tag : String) : Int :=
  findID s.textureIDs tag

/-- The scan loop of `SceneManager::FindTextureSlot`: index of the first
entry whose tag matches (`idx` is the running index); `-1` if none does. -/
def findSlot : List TEXTURE_ID → String → Nat → Int
  | [], _, _ => -1
  | e :: rest, tag, idx =>
    if e.tag = tag then (idx : Int) else findSlot rest tag (idx + 1)

/-- Method `SceneManager::FindTextureSlot`. -/
def FindTextureSlot (s : SceneManager) (tag : String) : Int :=
  findSlot s.textureIDs tag 0

/-- The scan loop of `SceneManager::FindMaterial`: on the first tag match the
five property fields (not the tag) are copied into the out-parameter. -/
def findMat : List OBJECT_MATERIAL → String → OBJECT_MATERIAL → OBJECT_MATERIAL
  | [], _, material => material
  | m :: rest, tag, material =>
    if m.tag = tag then
      { material with
        ambientColor := m.ambientColor
        ambientStrength := m.ambientStrength
        diffuseColor := m.diffuseColor
        specularColor := m.specularColor
        shininess := m.shininess }
    else findMat rest tag material

/-- Method `SceneManager::FindMaterial`: returns `false` for an empty table, and
otherwise runs the scan loop and returns `true` — whether or not any entry
matched.  The pair is (returned bool, out-parameter after the call). -/
def FindMaterial (s : SceneManager) (tag : String) (material : OBJECT_MATERIAL) :
    Bool × OBJECT_MATERIAL :=
  if s.objectMaterials.length = 0 then
    (false, material)
  else
    (true, findMat s.objectMaterials tag material)

/-- Method `SceneManager::SetTransformations`.  `(cx, sx)`, `(cy, sy)`, `(cz, sz)`
are the cosine/sine of the three radian-converted rotation angles.  The
model matrix is `translation * rotationZ * rotationY * rotationX * scale`;
it is sent only when `m_pShaderManager` is non-NULL. -/
def SetTransformations (scaleXYZ : Vec3) (cx sx cy sy cz sz : ℚ)
    (positionXYZ : Vec3) (s : SceneManager) : Option SceneManager :=
  let scale := scaleM scaleXYZ
  let rX := rotXM cx sx
  let rY := rotYM cy sy
  let rZ := rotZM cz sz
  let tr := translateM positionXYZ
  let modelView := mul4 (mul4 (mul4 (mul4 tr rZ) rY) rX) scale
  match s.shader with
  | some sh => some { s with shader := some { sh with model := modelView } }
  | none => some s

/-- Method `SceneManager::SetShaderColor`: with a non-NULL shader, sets
`bUseTexture` to false and `objectColor` to the given color. -/
def SetShaderColor (r g b a : ℚ) (s : SceneManager) : Option SceneManager :=
  match s.shader with
  | some sh =>
    let sh2 := { sh with bUseTexture := false, objectColor := (r, g, b, a) }
    some { s with shader := some sh2 }
  | none => some s

/-- Method `SceneManager::SetShaderTexture`: with a non-NULL shader, sets
`bUseTexture` to true and sends `FindTextureSlot(tag)` as the sampler
value (the slot lookup result, `-1` on a miss, is passed on unchecked). -/
def SetShaderTexture (textureTag : String) (s : SceneManager) :
    Option SceneManager :=
  match s.shader with
  | some sh =>
    let sh2 := { sh with bUseTexture := true,
                         objectTexture := FindTextureSlot s textureTag }
    some { s with shader := some sh2 }
  | none => some s

/-- Method `SceneManager::SetTextureUVScale`. -/
def SetTextureUVScale (u v : ℚ) (s : SceneManager) : Option SceneManager :=
  match s.shader with
  | some sh => some { s with shader := some { sh with uvScale := (u, v) } }
  | none => some s

/-- Method `SceneManager::SetShaderMaterial`.  `localMaterial` models the value of
the default-constructed (uninitialised) stack variable `material`.  When the
material table is non-empty, `FindMaterial` is called and — because it
returns `true` for any non-empty table — the five `material.*` uniforms are
written through `m_pShaderManager` WITHOUT a NULL check: with a NULL shader
pointer this is a NULL dereference, modelled as `none`. -/
def SetShaderMaterial (localMaterial : OBJECT_MATERIAL) (materialTag : String)
    (s : SceneManager) : Option SceneManager :=
  if 0 < s.objectMaterials.length then
    let r := FindMaterial s materialTag localMaterial
    if r.1 = true then
      match s.shader with
      | some sh =>
        let sh2 := { sh with
          materialAmbientColor := r.2.ambientColor
          materialAmbientStrength := r.2.ambientStrength
          materialDiffuseColor := r.2.diffuseColor
          materialSpecularColor := r.2.specularColor
          materialShininess := r.2.shininess }
        some { s with shader := some sh2 }
      | none => none
    else
      some s
  else
    some s

end SceneManager

open SceneManager

/-- The teardown loop issues exactly one `glGenTextures` per entry and
replaces entry `i`'s handle with the freshly generated handle `h + i`. -/
theorem destroyLoop_eq (ts : List TEXTURE_ID) (h : Nat) :
    destroyLoop ts h = (List.replicate ts.length GLCall.genTextures,
      List.zipWith (fun e k => { e with ID := k }) ts (List.range' h ts.length)) := by
  induction ts generalizing h with
  | nil => rfl
  | cons e rest ih =>
    simp [destroyLoop, ih, List.range'_succ, List.replicate_succ]

/-- C1: `FindMaterial` returns `false` exactly when the material table is
empty; for any non-empty table it returns `true`, regardless of whether any
entry's tag equals the requested tag. -/
theorem FindMaterial_true_iff_nonempty (s : SceneManager) (tag : String)
    (m : OBJECT_MATERIAL) :
    (s.FindMaterial tag m).1 = true ↔ s.objectMaterials ≠ [] := by
  unfold SceneManager.FindMaterial
  cases s.objectMaterials with
  | nil => simp
  | cons a l => simp

/-- C2: for a state with N loaded textures, `DestroyGLTextures` issues one
texture-generate call per loaded entry (overwriting each stored handle with
a freshly generated one) and issues no texture-delete call, so no previously
created texture handle is released on teardown. -/
theorem DestroyGLTextures_regenerates_instead_of_deleting
    (h : Nat) (s : SceneManager) :
    (DestroyGLTextures h s).1 =
        List.replicate s.textureIDs.length GLCall.genTextures ∧
    GLCall.deleteTextures ∉ (DestroyGLTextures h s).1 ∧
    ((DestroyGLTextures h s).2).textureIDs =
      List.zipWith (fun e k => { e with ID := k }) s.textureIDs
        (List.range' h s.textureIDs.length) := by
  unfold SceneManager.DestroyGLTextures
  rw [destroyLoop_eq]
  refine ⟨rfl, ?_, rfl⟩
  simp [List.mem_replicate]

/-- An `OBJECT_MATERIAL` value standing for the default-constructed
(uninitialised) stack variable in `SetShaderMaterial`; the concrete field
values are irrelevant to every property proved below. -/
def zeroMaterial : OBJECT_MATERIAL :=
  { ambientColor := (0, 0, 0), ambientStrength := 0, diffuseColor := (0, 0, 0),
    specularColor := (0, 0, 0), shininess := 0, tag := "" }

/-- The "steel" material registered by `DefineObjectMaterials` (its ambient
fields are never assigned there; they are set to 0 here). -/
def steelMaterial : OBJECT_MATERIAL :=
  { ambientColor := (0, 0, 0), ambientStrength := 0,
    diffuseColor := (1/2, 1/2, 1/2), specularColor := (7/10, 7/10, 7/10),
    shininess := 64, tag := "steel" }

/-- A scene manager constructed with a NULL shader pointer and no loaded
resources. -/
def emptySM : SceneManager := ⟨none, [], []⟩

/-- A scene manager with a NULL shader pointer whose material table holds
the one material the scene script defines. -/
def nullShaderSM : SceneManager := ⟨none, [], [steelMaterial]⟩

/-- C3 counterexample: with the shader interface unset (NULL) and a
non-empty material table, `SetShaderMaterial` is not a no-op — because
`FindMaterial` reports success for any non-empty table and the method has
no NULL check, it writes the `material.*` uniforms through the NULL shader
pointer (modelled as the faulting result `none`). -/
theorem SetShaderMaterial_null_shader_faults :
    SetShaderMaterial zeroMaterial "steel" nullShaderSM = none := rfl

/-- C3 (amended): with the shader interface unset, `SetTransformations`,
`SetShaderColor`, `SetShaderTexture` and `SetTextureUVScale` are no-ops,
and `SetShaderMaterial` is a no-op only when the material table is empty;
with a non-empty material table it dereferences the unset interface. -/
theorem uniformHelpers_noop_when_shader_null (s : SceneManager)
    (hs : s.shader = none) (v p : Vec3) (cx sx cy sy cz sz r g b a u w : ℚ)
    (tag mtag : String) (gm : OBJECT_MATERIAL) :
    SetTransformations v cx sx cy sy cz sz p s = some s ∧
    SetShaderColor r g b a s = some s ∧
    SetShaderTexture tag s = some s ∧
    SetTextureUVScale u w s = some s ∧
    (s.objectMaterials = [] → SetShaderMaterial gm mtag s = some s) ∧
    (s.objectMaterials ≠ [] → SetShaderMaterial gm mtag s = none) := by
  refine ⟨?_, ?_, ?_, ?_, ?_, ?_⟩
  · simp [SetTransformations, hs]
  · simp [SetShaderColor, hs]
  · simp [SetShaderTexture, hs]
  · simp [SetTextureUVScale, hs]
  · intro hm
    simp [SetShaderMaterial, hm]
  · intro hm
    have hl : 0 < s.objectMaterials.length := List.length_pos.mpr hm
    have hne : s.objectMaterials.length ≠ 0 := Nat.pos_iff_ne_zero.mp hl
    simp [SetShaderMaterial, FindMaterial, hs, hl, hne]

/-- C3 witness: the amended statement at a concrete state (NULL shader,
empty tables). -/
theorem uniformHelpers_noop_when_shader_null_witness :
    SetTransformations (1, 1, 1) 1 0 1 0 1 0 (0, 0, 0) emptySM = some emptySM ∧
    SetShaderColor 1 0 0 1 emptySM = some emptySM ∧
    SetShaderTexture "sand" emptySM = some emptySM ∧
    SetTextureUVScale 1 1 emptySM = some emptySM ∧
    (emptySM.objectMaterials = [] →
      SetShaderMaterial zeroMaterial "steel" emptySM = some emptySM) ∧
    (emptySM.objectMaterials ≠ [] →
      SetShaderMaterial zeroMaterial "steel" emptySM = none) :=
  uniformHelpers_noop_when_shader_null emptySM rfl (1, 1, 1) (0, 0, 0)
    1 0 1 0 1 0 1 0 0 1 1 1 "sand" "steel" zeroMaterial

/-- C4 (amended): every successful `CreateGLTexture` call records its entry
at the next free slot — index equal to the number of previously loaded
textures — and increments the count; nothing in the code checks that index
against the 16-entry capacity. -/
theorem CreateGLTexture_next_free_slot (s : SceneManager) (img : ImageData)
    (tid : Nat) (tag : String)
    (hch : img.colorChannels = 3 ∨ img.colorChannels = 4) :
    (CreateGLTexture (some img) tid tag s).1 = true ∧
    (CreateGLTexture (some img) tid tag s).2.textureIDs
      = s.textureIDs ++ [⟨tid, tag⟩] ∧
    (CreateGLTexture (some img) tid tag s).2.textureIDs.length
      = s.textureIDs.length + 1 := by
  refine ⟨?_, ?_, ?_⟩ <;> simp [CreateGLTexture, hch]

/-- C4 witness: the amended statement at a concrete load into the empty
table. -/
theorem CreateGLTexture_next_free_slot_witness :
    (CreateGLTexture (some ⟨2, 2, 3⟩) 42 "sand" emptySM).1 = true ∧
    (CreateGLTexture (some ⟨2, 2, 3⟩) 42 "sand" emptySM).2.textureIDs
      = emptySM.textureIDs ++ [⟨42, "sand"⟩] ∧
    (CreateGLTexture (some ⟨2, 2, 3⟩) 42 "sand" emptySM).2.textureIDs.length
      = emptySM.textureIDs.length + 1 :=
  CreateGLTexture_next_free_slot emptySM ⟨2, 2, 3⟩ 42 "sand" (Or.inl rfl)

/-- Iterates `n` successive successful 3-channel texture loads. -/
def loadNTimes : Nat → SceneManager → SceneManager
  | 0, s => s
  | n + 1, s => (CreateGLTexture (some ⟨2, 2, 3⟩) n "t" (loadNTimes n s)).2

/-- C4 counterexample: after 16 successful loads the table is full, yet a
17th successful call still succeeds and writes at slot index 16, which is
not below the capacity `MAX_TEXTURES = 16` — the write goes past the
fixed-capacity table. -/
theorem CreateGLTexture_overflows_capacity :
    (loadNTimes 16 emptySM).textureIDs.length = 16 ∧
    (CreateGLTexture (some ⟨2, 2, 3⟩) 16 "t16" (loadNTimes 16 emptySM)).1
      = true ∧
    (CreateGLTexture (some ⟨2, 2, 3⟩) 16 "t16"
        (loadNTimes 16 emptySM)).2.textureIDs.length = MAX_TEXTURES + 1 ∧
    ¬ ((loadNTimes 16 emptySM).textureIDs.length < MAX_TEXTURES) := by
  refine ⟨by decide, by decide, by decide, by decide⟩

/-- The model matrix `SetTransformations` builds:
`translation * rotationZ * rotationY * rotationX * scale` (scale applied
first, translation last). -/
def composedModel (v p : Vec3) (cx sx cy sy cz sz : ℚ) : Mat4 :=
  mul4 (mul4 (mul4 (mul4 (translateM p) (rotZM cz sz)) (rotYM cy sy))
    (rotXM cx sx)) (scaleM v)

/-- The same product with only the X- and Y-rotation factors exchanged. -/
def composedModelYXswap (v p : Vec3) (cx sx cy sy cz sz : ℚ) : Mat4 :=
  mul4 (mul4 (mul4 (mul4 (translateM p) (rotZM cz sz)) (rotXM cx sx))
    (rotYM cy sy)) (scaleM v)

/-- C5: `SetTransformations` sends the model matrix
`translation * rotationZ * rotationY * rotationX * scale` — scale applied
first, then the X, Y, Z rotations, then the translation — and at the
non-trivial angles X = Y = 90° (cosine 0, sine 1) swapping only the X and Y
rotation factors changes the resulting matrix. -/
theorem SetTransformations_model_matrix_order (sh : ShaderState)
    (ts : List TEXTURE_ID) (ms : List OBJECT_MATERIAL) (v p : Vec3)
    (cx sx cy sy cz sz : ℚ) :
    SetTransformations v cx sx cy sy cz sz p ⟨some sh, ts, ms⟩ =
      some ⟨some { sh with model := composedModel v p cx sx cy sy cz sz },
        ts, ms⟩ ∧
    composedModel (1, 1, 1) (0, 0, 0) 0 1 0 1 1 0 ≠
      composedModelYXswap (1, 1, 1) (0, 0, 0) 0 1 0 1 1 0 := by
  refine ⟨rfl, fun h => ?_⟩
  have h01 : composedModel (1, 1, 1) (0, 0, 0) 0 1 0 1 1 0 0 1 =
      composedModelYXswap (1, 1, 1) (0, 0, 0) 0 1 0 1 1 0 0 1 :=
    congrFun (congrFun h 0) 1
  simp [composedModel, composedModelYXswap, mul4, translateM, rotXM, rotYM,
    rotZM, scaleM, Matrix.cons_val_zero, Matrix.cons_val_one,
    Matrix.head_cons, Matrix.cons_val_two, Matrix.vecTail, Matrix.vecHead]
    at h01

/-- The `bUseTexture` uniform value seen by the shader after a helper call
(`none` when the call faulted or the shader interface is unset). -/
def useTextureOf (r : Option SceneManager) : Option Bool :=
  r.bind fun s => s.shader.map fun sh => sh.bUseTexture

/-- C6: with the shader interface set, `SetShaderColor` sets `bUseTexture`
to false and `SetShaderTexture` sets it to true, and after running one then
the other the flag reflects exactly the last of the two calls. -/
theorem shader_useTexture_flag_mutually_exclusive (sh : ShaderState)
    (ts : List TEXTURE_ID) (ms : List OBJECT_MATERIAL) (r g b a : ℚ)
    (tag : String) :
    useTextureOf (SetShaderColor r g b a ⟨some sh, ts, ms⟩) = some false ∧
    useTextureOf (SetShaderTexture tag ⟨some sh, ts, ms⟩) = some true ∧
    useTextureOf ((SetShaderColor r g b a ⟨some sh, ts, ms⟩).bind
      (SetShaderTexture tag)) = some true ∧
    useTextureOf ((SetShaderTexture tag ⟨some sh, ts, ms⟩).bind
      (SetShaderColor r g b a)) = some false :=
  ⟨rfl, rfl, rfl, rfl⟩

/-- A tag matching no entry scans to the `-1` sentinel (handle lookup). -/
theorem findID_miss (l : List TEXTURE_ID) (tag : String)
    (hfresh : ∀ e ∈ l, e.tag ≠ tag) : findID l tag = -1 := by
  induction l with
  | nil => rfl
  | cons x rest ih =>
    have hx : x.tag ≠ tag := hfresh x (by simp)
    simp only [findID, if_neg hx]
    exact ih fun y hy => hfresh y (List.mem_cons_of_mem x hy)

/-- A tag matching no entry scans to the `-1` sentinel (slot lookup), for
any running index. -/
theorem findSlot_miss (l : List TEXTURE_ID) (tag : String) (idx : Nat)
    (hfresh : ∀ e ∈ l, e.tag ≠ tag) : findSlot l tag idx = -1 := by
  induction l generalizing idx with
  | nil => rfl
  | cons x rest ih =>
    have hx : x.tag ≠ tag := hfresh x (by simp)
    simp only [findSlot, if_neg hx]
    exact ih (idx + 1) fun y hy => hfresh y (List.mem_cons_of_mem x hy)

/-- Appending an entry whose tag is absent from the prefix makes the handle
lookup hit exactly that entry. -/
theorem findID_append (l : List TEXTURE_ID) (tag : String) (e : TEXTURE_ID)
    (hfresh : ∀ x ∈ l, x.tag ≠ tag) (he : e.tag = tag) :
    findID (l ++ [e]) tag = (e.ID : Int) := by
  induction l with
  | nil => simp [findID, he]
  | cons x rest ih =>
    have hx : x.tag ≠ tag := hfresh x (by simp)
    simp only [List.cons_append, findID, if_neg hx]
    exact ih fun y hy => hfresh y (List.mem_cons_of_mem x hy)

/-- Appending an entry whose tag is absent from the prefix makes the slot
lookup return the slot right after the prefix. -/
theorem findSlot_append (l : List TEXTURE_ID) (tag : String) (e : TEXTURE_ID)
    (idx : Nat) (hfresh : ∀ x ∈ l, x.tag ≠ tag) (he : e.tag = tag) :
    findSlot (l ++ [e]) tag idx = ((idx + l.length : Nat) : Int) := by
  induction l generalizing idx with
  | nil => simp [findSlot, he]
  | cons x rest ih =>
    have hx : x.tag ≠ tag := hfresh x (by simp)
    simp only [List.cons_append, findSlot, if_neg hx, List.append_eq]
    rw [ih (idx + 1) fun y hy => hfresh y (List.mem_cons_of_mem x hy)]
    simp only [List.length_cons]
    omega

/-- C7 counterexample: loading a 4-channel image under a tag that is already
registered (handle 5) succeeds and appends, but the handle lookup still
returns the first entry's handle 5, not the new handle 7. -/
theorem CreateGLTexture_duplicate_tag_shadowed :
    (CreateGLTexture (some ⟨2, 2, 4⟩) 7 "a" ⟨none, [⟨5, "a"⟩], []⟩).1 = true ∧
    (CreateGLTexture (some ⟨2, 2, 4⟩) 7 "a"
        ⟨none, [⟨5, "a"⟩], []⟩).2.textureIDs = [⟨5, "a"⟩, ⟨7, "a"⟩] ∧
    FindTextureID
        (CreateGLTexture (some ⟨2, 2, 4⟩) 7 "a" ⟨none, [⟨5, "a"⟩], []⟩).2 "a"
      = 5 ∧
    (5 : Int) ≠ 7 := by
  refine ⟨rfl, by decide, by decide, by decide⟩

/-- C7 (amended): for every image that loads with channel count 3 or 4 under
a tag not already present in the table, `CreateGLTexture` returns true and
appends a `{handle, tag}` entry, and afterwards `FindTextureID` returns that
handle and `FindTextureSlot` that entry's slot index, neither being `-1`.
(With a duplicate tag both lookups return the earlier entry instead.) -/
theorem CreateGLTexture_registered_retrievable (s : SceneManager)
    (img : ImageData) (tid : Nat) (tag : String)
    (hch : img.colorChannels = 3 ∨ img.colorChannels = 4)
    (hfresh : ∀ e ∈ s.textureIDs, e.tag ≠ tag) :
    (CreateGLTexture (some img) tid tag s).1 = true ∧
    (CreateGLTexture (some img) tid tag s).2.textureIDs
      = s.textureIDs ++ [⟨tid, tag⟩] ∧
    FindTextureID (CreateGLTexture (some img) tid tag s).2 tag = (tid : Int) ∧
    FindTextureSlot (CreateGLTexture (some img) tid tag s).2 tag
      = (s.textureIDs.length : Int) ∧
    FindTextureID (CreateGLTexture (some img) tid tag s).2 tag ≠ -1 ∧
    FindTextureSlot (CreateGLTexture (some img) tid tag s).2 tag ≠ -1 := by
  have htab : (CreateGLTexture (some img) tid tag s).2.textureIDs
      = s.textureIDs ++ [⟨tid, tag⟩] := by
    simp [CreateGLTexture, hch]
  have hid : FindTextureID (CreateGLTexture (some img) tid tag s).2 tag
      = (tid : Int) := by
    unfold FindTextureID
    rw [htab]
    exact findID_append s.textureIDs tag ⟨tid, tag⟩ hfresh rfl
  have hslot : FindTextureSlot (CreateGLTexture (some img) tid tag s).2 tag
      = (s.textureIDs.length : Int) := by
    unfold FindTextureSlot
    rw [htab]
    have := findSlot_append s.textureIDs tag ⟨tid, tag⟩ 0 hfresh rfl
    simpa using this
  refine ⟨by simp [CreateGLTexture, hch], htab, hid, hslot, ?_, ?_⟩
  · rw [hid]
    omega
  · rw [hslot]
    omega

/-- C7 witness: the amended statement at a concrete 3-channel load of a
fresh tag into the empty table. -/
theorem CreateGLTexture_registered_retrievable_witness :
    (CreateGLTexture (some ⟨2, 2, 3⟩) 9 "sand" emptySM).1 = true ∧
    (CreateGLTexture (some ⟨2, 2, 3⟩) 9 "sand" emptySM).2.textureIDs
      = emptySM.textureIDs ++ [⟨9, "sand"⟩] ∧
    FindTextureID (CreateGLTexture (some ⟨2, 2, 3⟩) 9 "sand" emptySM).2 "sand"
      = (9 : Int) ∧
    FindTextureSlot (CreateGLTexture (some ⟨2, 2, 3⟩) 9 "sand" emptySM).2 "sand"
      = (emptySM.textureIDs.length : Int) ∧
    FindTextureID (CreateGLTexture (some ⟨2, 2, 3⟩) 9 "sand" emptySM).2 "sand"
      ≠ -1 ∧
    FindTextureSlot (CreateGLTexture (some ⟨2, 2, 3⟩) 9 "sand" emptySM).2 "sand"
      ≠ -1 :=
  CreateGLTexture_registered_retrievable emptySM ⟨2, 2, 3⟩ 9 "sand"
    (Or.inl rfl) (by simp [emptySM])

/-- C8 counterexample: a 2-channel load under an already-registered tag
fails and leaves the table unchanged, yet the subsequent lookup for that tag
returns the earlier entry's handle 5, not the `-1` sentinel. -/
theorem CreateGLTexture_failed_load_lookup_hits_old_entry :
    (CreateGLTexture (some ⟨2, 2, 2⟩) 7 "a" ⟨none, [⟨5, "a"⟩], []⟩).1 = false ∧
    (CreateGLTexture (some ⟨2, 2, 2⟩) 7 "a"
        ⟨none, [⟨5, "a"⟩], []⟩).2.textureIDs = [⟨5, "a"⟩] ∧
    FindTextureID
        (CreateGLTexture (some ⟨2, 2, 2⟩) 7 "a" ⟨none, [⟨5, "a"⟩], []⟩).2 "a"
      = 5 ∧
    (5 : Int) ≠ -1 := by
  refine ⟨rfl, by decide, by decide, by decide⟩

/-- C8 (amended): for every image whose channel count is neither 3 nor 4,
`CreateGLTexture` returns false and leaves the texture table (hence its
count) unchanged; and provided no entry with that tag already exists, a
subsequent `FindTextureID` or `FindTextureSlot` for the tag returns `-1`.
(If the tag was registered earlier, the lookups return that older entry.) -/
theorem CreateGLTexture_bad_channels_rejected (s : SceneManager)
    (img : ImageData) (tid : Nat) (tag : String)
    (h3 : img.colorChannels ≠ 3) (h4 : img.colorChannels ≠ 4) :
    (CreateGLTexture (some img) tid tag s).1 = false ∧
    (CreateGLTexture (some img) tid tag s).2 = s ∧
    ((∀ e ∈ s.textureIDs, e.tag ≠ tag) →
      FindTextureID (CreateGLTexture (some img) tid tag s).2 tag = -1 ∧
      FindTextureSlot (CreateGLTexture (some img) tid tag s).2 tag = -1) := by
  have hcond : ¬ (img.colorChannels = 3 ∨ img.colorChannels = 4) := by
    tauto
  have hstate : (CreateGLTexture (some img) tid tag s).2 = s := by
    simp [CreateGLTexture, hcond]
  refine ⟨by simp [CreateGLTexture, hcond], hstate, fun hfresh => ⟨?_, ?_⟩⟩
  · rw [hstate]
    exact findID_miss s.textureIDs tag hfresh
  · rw [hstate]
    exact findSlot_miss s.textureIDs tag 0 hfresh

/-- C8 witness: the amended statement at a concrete 2-channel load of a
fresh tag against the empty table. -/
theorem CreateGLTexture_bad_channels_rejected_witness :
    (CreateGLTexture (some ⟨2, 2, 2⟩) 9 "sand" emptySM).1 = false ∧
    (CreateGLTexture (some ⟨2, 2, 2⟩) 9 "sand" emptySM).2 = emptySM ∧
    ((∀ e ∈ emptySM.textureIDs, e.tag ≠ "sand") →
      FindTextureID (CreateGLTexture (some ⟨2, 2, 2⟩) 9 "sand" emptySM).2 "sand"
        = -1 ∧
      FindTextureSlot
          (CreateGLTexture (some ⟨2, 2, 2⟩) 9 "sand" emptySM).2 "sand"
        = -1) :=
  CreateGLTexture_bad_channels_rejected emptySM ⟨2, 2, 2⟩ 9 "sand"
    (by decide) (by decide)

/-- A sequence of texture registrations, each a (tag, generated handle)
pair loaded from a 3-channel image, applied through `CreateGLTexture` in
order. -/
def registerAll : List (String × Nat) → SceneManager → SceneManager
  | [], s => s
  | (tag, tid) :: rest, s =>
    registerAll rest (CreateGLTexture (some ⟨2, 2, 3⟩) tid tag s).2

/-- Each registration succeeds and appends, so registering a whole sequence
appends its entries in order. -/
theorem registerAll_textureIDs (regs : List (String × Nat)) (s : SceneManager) :
    (registerAll regs s).textureIDs =
      s.textureIDs ++ regs.map (fun r => (⟨r.2, r.1⟩ : TEXTURE_ID)) := by
  induction regs generalizing s with
  | nil => simp [registerAll]
  | cons r rest ih =>
    obtain ⟨tag, tid⟩ := r
    simp only [registerAll]
    rw [ih]
    simp [CreateGLTexture]

/-- In a table whose tags are pairwise distinct, the slot scan started at
running index `acc` finds entry `k` at `acc + k`. -/
theorem findSlot_get_of_nodup (l : List TEXTURE_ID) (k : Nat)
    (hk : k < l.length) (acc : Nat) (hnd : (l.map TEXTURE_ID.tag).Nodup) :
    findSlot l ((l.get ⟨k, hk⟩).tag) acc = ((acc + k : Nat) : Int) := by
  induction l generalizing k acc with
  | nil => exact absurd hk (by simp)
  | cons e rest ih =>
    match k with
    | 0 => simp [findSlot]
    | Nat.succ k =>
      have hk2 : k < rest.length := by simpa using hk
      have hndr : (rest.map TEXTURE_ID.tag).Nodup :=
        (List.nodup_cons.mp hnd).2
      have hmem : (rest.get ⟨k, hk2⟩).tag ∈ rest.map TEXTURE_ID.tag :=
        List.mem_map_of_mem TEXTURE_ID.tag (rest.get_mem k hk2)
      have hne : e.tag ≠ (rest.get ⟨k, hk2⟩).tag := by
        intro h
        exact (List.nodup_cons.mp hnd).1 (h ▸ hmem)
      have hget : ((e :: rest).get ⟨k + 1, hk⟩) = rest.get ⟨k, hk2⟩ := rfl
      rw [hget]
      simp only [findSlot, if_neg hne]
      rw [ih k hk2 (acc + 1) hndr]
      omega

/-- C9: registering a sequence of successful texture loads with pairwise
distinct tags assigns slots first-in-first-out: `FindTextureSlot` on the
k-th registered tag (0-based) returns k. -/
theorem FindTextureSlot_fifo (regs : List (String × Nat))
    (hnd : (regs.map Prod.fst).Nodup) (k : Nat) (hk : k < regs.length) :
    FindTextureSlot (registerAll regs emptySM) ((regs.get ⟨k, hk⟩).1)
      = (k : Int) := by
  unfold FindTextureSlot
  rw [registerAll_textureIDs]
  have hk2 : k < (regs.map (fun r => (⟨r.2, r.1⟩ : TEXTURE_ID))).length := by
    simpa using hk
  have hget : ((regs.map fun r => (⟨r.2, r.1⟩ : TEXTURE_ID)).get
      ⟨k, hk2⟩).tag = (regs.get ⟨k, hk⟩).1 := by
    simp
  have hndm : ((regs.map fun r => (⟨r.2, r.1⟩ : TEXTURE_ID)).map
      TEXTURE_ID.tag).Nodup := by
    simpa [List.map_map, Function.comp] using hnd
  have hbase : (emptySM.textureIDs ++
      regs.map fun r => (⟨r.2, r.1⟩ : TEXTURE_ID)) =
      regs.map fun r => (⟨r.2, r.1⟩ : TEXTURE_ID) := by
    simp [emptySM]
  rw [hbase, ← hget]
  simpa using findSlot_get_of_nodup _ k hk2 0 hndm

/-- C9 witness: three distinct registrations; the middle tag is found at
slot 1. -/
theorem FindTextureSlot_fifo_witness :
    FindTextureSlot (registerAll [("a", 1), ("b", 2), ("c", 3)] emptySM)
      ((([("a", 1), ("b", 2), ("c", 3)] : List (String × Nat)).get
        ⟨1, by decide⟩).1) = (1 : Int) :=
  FindTextureSlot_fifo [("a", 1), ("b", 2), ("c", 3)] (by decide) 1 (by decide)

/-- A concrete shader-uniform state to instantiate witnesses with. -/
def sampleShader : ShaderState :=
  { model := fun _ _ => 0, objectColor := (0, 0, 0, 0), objectTexture := 0,
    bUseTexture := false, uvScale := (1, 1), materialAmbientColor := (0, 0, 0),
    materialAmbientStrength := 0, materialDiffuseColor := (0, 0, 0),
    materialSpecularColor := (0, 0, 0), materialShininess := 0 }

/-- C10: for a tag not present in the texture table, `SetShaderTexture`
with the shader interface set still sets `bUseTexture` to true and passes
the miss sentinel `-1` as the sampler value, instead of leaving the shader
state unchanged or reporting the miss. -/
theorem SetShaderTexture_miss_passes_sentinel (sh : ShaderState)
    (ts : List TEXTURE_ID) (ms : List OBJECT_MATERIAL) (tag : String)
    (hfresh : ∀ e ∈ ts, e.tag ≠ tag) :
    SetShaderTexture tag ⟨some sh, ts, ms⟩ =
      some ⟨some { sh with bUseTexture := true, objectTexture := -1 }, ts, ms⟩ := by
  have hm : FindTextureSlot ⟨some sh, ts, ms⟩ tag = -1 :=
    findSlot_miss ts tag 0 hfresh
  simp [SetShaderTexture, hm]

/-- C10 witness: looking up an unregistered tag in a one-entry table. -/
theorem SetShaderTexture_miss_passes_sentinel_witness :
    SetShaderTexture "missing" ⟨some sampleShader, [⟨5, "a"⟩], []⟩ =
      some ⟨some { sampleShader with bUseTexture := true, objectTexture := -1 }, [⟨5, "a"⟩], []⟩ :=
  SetShaderTexture_miss_passes_sentinel sampleShader [⟨5, "a"⟩] [] "missing"
    (by decide)
